import Mathlib

/-!
Verification development for the FastAPI audio-to-MIDI conversion service.

The Python service (main.py, worker.py, model.py, config.py) is shallowly
embedded below: each Python function becomes a pure Lean function over an
explicit environment describing the outcomes of external effects (HTTP
requests, the inference model, directory creation).  Filesystem paths are
modelled as lists of components (os.path.join appends one component);
byte strings are lists of naturals.
-/

namespace MidiConv

/-- Byte sequences, as produced/consumed by the HTTP layer. -/
abbrev Bytes := List Nat

/-- Filesystem paths as component lists; os.path.join(d, n) is d ++ [n]. -/
abbrev Path := List String

/-! ### String helpers mirroring Python primitives -/

/-- Python str.split(sep) with a one-character separator: splits the character
list at every occurrence of c, keeping empty pieces. -/
def splitOnChar (c : Char) : List Char → List (List Char)
  | [] => [[]]
  | a :: as =>
    match splitOnChar c as with
    | [] => [[]]
    | g :: gs => if a == c then [] :: g :: gs else (a :: g) :: gs

/-- Python str.lower(), on the characters of a string. -/
def pyLower (s : String) : String :=
  String.mk (s.data.map Char.toLower)

/-- Python str.rstrip with the single character '/': drops trailing slashes. -/
def rstripSlashes (s : String) : String :=
  String.mk ((s.data.reverse.dropWhile (fun c => c == '/')).reverse)

/-- Python str.capitalize(): first character uppercased, the rest lowercased. -/
def pyCapitalize (w : String) : String :=
  match w.data with
  | [] => ""
  | c :: cs => String.mk (c.toUpper :: cs.map Char.toLower)

/-- model.to_camel: snake_case to camelCase — split on underscores, keep the
first word, capitalize the following words, concatenate. -/
def to_camel (s : String) : String :=
  match (splitOnChar '_' s.data).map String.mk with
  | [] => ""
  | w :: ws => w ++ String.join (ws.map pyCapitalize)

/-- pathlib PurePath.name: the final path component (empty and "." components
dropped, as pathlib normalises them away). -/
def pathlibName (p : String) : String :=
  (((splitOnChar '/' p.data).map String.mk).filter
    (fun s => !(s == "") && !(s == "."))).getLastD ""

/-- pathlib PurePath.suffix: the substring of the name from its last dot,
provided that dot is neither the first nor the last character of the name. -/
def pathlibSuffix (file_name : String) : String :=
  let name := (pathlibName file_name).data
  match name.reverse.findIdx? (fun c => c == '.') with
  | none => ""
  | some r =>
    let i := name.length - 1 - r
    if 0 < i ∧ i < name.length - 1 then String.mk (name.drop i) else ""

/-- Case-sensitive substring containment (Python `sub in s`). -/
def containsSubstr (s sub : String) : Bool :=
  (List.range (s.data.length + 1)).any (fun i => sub.data.isPrefixOf (s.data.drop i))

/-! ### Data model (model.py) -/

/-- model.RequestMetadata. -/
structure RequestMetadata where
  file_type : String
  file_name : String
  original_file_id : String
  file_size : Option Nat
deriving DecidableEq

/-- model.ProcessingRequest (the processing_type literal has one value and is
omitted; URLs are opaque strings here). -/
structure ProcessingRequest where
  job_id : String
  user_id : String
  input_file_url : String
  output_file_url : String
  metadata : RequestMetadata
deriving DecidableEq

/-- The closed set of status values of model.StatusUpdateRequest.status. -/
inductive Status
  | processing
  | completed
  | failed
deriving DecidableEq

/-- The serialized (JSON) string of a status value. -/
def statusString : Status → String
  | .processing => "processing"
  | .completed => "completed"
  | .failed => "failed"

/-- model.StatusUpdateRequest. -/
structure StatusUpdateRequest where
  user_id : String
  file_id : String
  status : Status
  progress : Int
  message : String
  size : Option Nat
  python_job_id : String
deriving DecidableEq

/-- The Pydantic field validation on StatusUpdateRequest.progress:
Field(..., ge=0, le=100). -/
def validProgress (u : StatusUpdateRequest) : Prop :=
  0 ≤ u.progress ∧ u.progress ≤ 100

/-- The snake_case field names of StatusUpdateRequest, in declaration order. -/
def statusUpdateFields : List String :=
  ["user_id", "file_id", "status", "progress", "message", "size", "python_job_id"]

/-- The JSON keys emitted by model_dump(by_alias=True): the alias generator
to_camel applied to every field name. -/
def statusUpdateKeys : List String :=
  statusUpdateFields.map to_camel

/-- model.SuccessResponse. -/
structure SuccessResponse where
  success : Bool
  message : String
  job_id : String
deriving DecidableEq

/-- model.ErrorResponse. -/
structure ErrorResponse where
  success : Bool
  message : String
  error : Option String
deriving DecidableEq

/-! ### Configuration (config.py) -/

/-- config.POLYGEN_BACKEND_URL: os.getenv with a default for local
development. The environment is passed explicitly. -/
def POLYGEN_BACKEND_URL (env : String → Option String) : String :=
  (env "POLYGEN_BACKEND_URL").getD "http://localhost:3000"

/-- worker.SUPPORTED_AUDIO_FORMATS. -/
def SUPPORTED_AUDIO_FORMATS : List String :=
  [".wav", ".mp3", ".flac", ".m4a", ".ogg", ".aac"]

instance exceptDecEq {ε α : Type} [DecidableEq ε] [DecidableEq α] :
    DecidableEq (Except ε α) := fun x y =>
  match x, y with
  | Except.error e, Except.error e' =>
      if h : e = e' then isTrue (by rw [h])
      else isFalse (by intro hc; cases hc; exact h rfl)
  | Except.error _, Except.ok _ => isFalse (by intro hc; cases hc)
  | Except.ok _, Except.error _ => isFalse (by intro hc; cases hc)
  | Except.ok a, Except.ok b =>
      if h : a = b then isTrue (by rw [h])
      else isFalse (by intro hc; cases hc; exact h rfl)

/-! ### Status reporter (worker.update_status_api) -/

/-- The observable outcome of one outbound POST attempt. -/
inductive PostOutcome
  | ok2xx
  | non2xx (code : Nat)
  | netError (msg : String)
deriving DecidableEq

/-- worker.update_status_api: the dynamic callback URL, built from the
backend base URL (str(...).rstrip of trailing slashes) and the job id. -/
def mkCallbackUrl (backend_url job_id : String) : String :=
  rstripSlashes backend_url ++ "/api/users/jobs/" ++ job_id ++ "/callback"

/-- The body of update_status_api's try-block: client.post followed by
response.raise_for_status() — raises on a non-2xx response or transport
error, succeeds on 2xx. -/
def attemptPost : PostOutcome → Except String Unit
  | .ok2xx => Except.ok ()
  | .non2xx code => Except.error ("HTTP status error " ++ toString code)
  | .netError msg => Except.error msg

/-- A record of one call to update_status_api: the callback URL it POSTed to,
the payload, and its returned outcome. -/
structure SentCallback where
  url : String
  payload : StatusUpdateRequest
  result : Except String Unit
deriving DecidableEq

/-- worker.update_status_api: POST the payload to the dynamic callback URL;
both except-clauses only log, so every delivery failure is swallowed and the
function returns normally. -/
def update_status_api (backend_url : String) (outcome : PostOutcome)
    (job_id : String) (payload : StatusUpdateRequest) : SentCallback :=
  let callback_url := mkCallbackUrl backend_url job_id
  match attemptPost outcome with
  | Except.ok _ => ⟨callback_url, payload, Except.ok ()⟩
  | Except.error _ => ⟨callback_url, payload, Except.ok ()⟩

/-! ### Worker stages (worker.py) -/

/-- The result of worker.download_file: the value returned or exception
raised, the number of GET requests issued to the input URL, and the files
written into the temp directory. -/
structure DownloadResult where
  result : Except String Path
  requests : Nat
  written : List (Path × Bytes)
deriving DecidableEq

/-- worker.download_file: reject any file name whose lowercased pathlib
suffix is outside SUPPORTED_AUDIO_FORMATS before touching the network;
otherwise GET the URL (outcome supplied by net) and write the body to
the file "input_audio" plus the extension, inside temp_dir. -/
def download_file (net : Except String Bytes) (temp_dir : Path)
    (file_name : String) : DownloadResult :=
  let file_extension := pyLower (pathlibSuffix file_name)
  if file_extension ∉ SUPPORTED_AUDIO_FORMATS then
    ⟨Except.error ("Unsupported audio format: " ++ file_extension), 0, []⟩
  else
    let audio_file_path := temp_dir ++ ["input_audio" ++ file_extension]
    match net with
    | Except.error e => ⟨Except.error e, 1, []⟩
    | Except.ok content => ⟨Except.ok audio_file_path, 1, [(audio_file_path, content)]⟩

/-- The result of worker.convert_to_midi: the path and bytes of the chosen
MIDI file (or the raised message), plus every filesystem entry created
(the midi_output directory and the files the model wrote into it). -/
structure ConvertResult where
  result : Except String (Path × Bytes)
  created : List Path
deriving DecidableEq

/-- Path.glob of the pattern star-dot-mid: the produced files whose names
end in ".mid". -/
def globMid (files : List (String × Bytes)) : List (String × Bytes) :=
  files.filter (fun f => List.isSuffixOf (String.data ".mid") (String.data f.1))

/-- worker.convert_to_midi: make temp_dir/midi_output, run predict_and_save
(outcome supplied by predict: the files it wrote, or the exception it
raised), glob for .mid files, raise if none; every exception in the body is
re-raised wrapped as "MIDI conversion failed: ...". -/
def convert_to_midi (predict : Except String (List (String × Bytes)))
    (temp_dir : Path) (_job_id : String) : ConvertResult :=
  let output_dir := temp_dir ++ ["midi_output"]
  match predict with
  | Except.error e =>
      ⟨Except.error ("MIDI conversion failed: " ++ e), [output_dir]⟩
  | Except.ok files =>
      let createdFiles := files.map (fun f => output_dir ++ [f.1])
      match globMid files with
      | [] =>
          ⟨Except.error ("MIDI conversion failed: " ++
              "No MIDI file was generated by basic_pitch"),
            output_dir :: createdFiles⟩
      | f :: _ =>
          ⟨Except.ok (output_dir ++ [f.1], f.2), output_dir :: createdFiles⟩

/-- worker.upload_file: read the file fully into memory and PUT it to the
output URL; raise_for_status raises on non-2xx. Returns the raised-or-ok
outcome and the list of PUT bodies sent. -/
def upload_file (put : Except String Unit) (content : Bytes) :
    Except String Unit × List Bytes :=
  match put with
  | Except.ok _ => (Except.ok (), [content])
  | Except.error e => (Except.error e, [content])

/-! ### Job orchestrator (worker.run_audio_to_midi_job) -/

/-- The stages of the pipeline, in the order the orchestrator runs them. -/
inductive Stage
  | mkTemp
  | download
  | convert
  | upload
deriving DecidableEq

/-- The environment of one job run: the outcomes of the external effects, in
the order the orchestrator would observe them. mkdtempRes yields the fresh
directory name tempfile.mkdtemp would create (or the exception it raises);
netGet is the GET of the input URL; predict is the inference call; netPut is
the PUT to the output URL; rmtreeRes is the outcome of the shutil.rmtree
call in the finally block (on error, the exception the call raises — which
the worker catches and only logs, leaving the tree in place). -/
structure JobEnv where
  mkdtempRes : Except String String
  netGet : Except String Bytes
  predict : Except String (List (String × Bytes))
  netPut : Except String Unit
  rmtreeRes : Except String Unit
deriving DecidableEq

/-- worker.run_audio_to_midi_job's local send_update helper: builds the
StatusUpdateRequest from the request's fields and the job id. -/
def send_update (r : ProcessingRequest) (status : Status) (message : String)
    (progress : Int) (size : Option Nat) : StatusUpdateRequest :=
  ⟨r.user_id, r.metadata.original_file_id, status, progress, message, size, r.job_id⟩

/-- What the try/except part of run_audio_to_midi_job produces: the status
updates sent in order, the stages that began executing, the GETs issued, the
PUT bodies sent, the filesystem entries created, and the temp directory if
mkdtemp succeeded. -/
structure TryResult where
  updates : List StatusUpdateRequest
  stages : List Stage
  requests : Nat
  puts : List Bytes
  fs : List Path
  temp_dir : Option Path
deriving DecidableEq

/-- The try/except body of worker.run_audio_to_midi_job: create the temp
directory, then download, convert, upload, sending a "processing" update
before each stage; any exception aborts the remaining stages and is mapped
to a single "failed" update with progress 0 and the exception's message. -/
def jobTry (env : JobEnv) (r : ProcessingRequest) : TryResult :=
  match env.mkdtempRes with
  | Except.error e =>
      ⟨[send_update r Status.failed e 0 none], [Stage.mkTemp], 0, [], [], none⟩
  | Except.ok td =>
    let u1 := send_update r Status.processing "Downloading audio file..." 10 none
    let d := download_file env.netGet [td] r.metadata.file_name
    match d.result with
    | Except.error e =>
        ⟨[u1, send_update r Status.failed e 0 none], [Stage.mkTemp, Stage.download],
          d.requests, [], [td] :: d.written.map Prod.fst, some [td]⟩
    | Except.ok _audio_file_path =>
      let u2 := send_update r Status.processing "Converting audio to MIDI..." 50 none
      let c := convert_to_midi env.predict [td] r.job_id
      match c.result with
      | Except.error e =>
          ⟨[u1, u2, send_update r Status.failed e 0 none],
            [Stage.mkTemp, Stage.download, Stage.convert],
            d.requests, [], ([td] :: d.written.map Prod.fst) ++ c.created, some [td]⟩
      | Except.ok (_midi_file_path, midi_bytes) =>
        let u3 := send_update r Status.processing "Uploading converted MIDI file..." 90 none
        let midi_file_size := midi_bytes.length
        let up := upload_file env.netPut midi_bytes
        match up.1 with
        | Except.error e =>
            ⟨[u1, u2, u3, send_update r Status.failed e 0 none],
              [Stage.mkTemp, Stage.download, Stage.convert, Stage.upload],
              d.requests, up.2, ([td] :: d.written.map Prod.fst) ++ c.created, some [td]⟩
        | Except.ok _ =>
            ⟨[u1, u2, u3, send_update r Status.completed
                "Processing completed successfully." 100 (some midi_file_size)],
              [Stage.mkTemp, Stage.download, Stage.convert, Stage.upload],
              d.requests, up.2, ([td] :: d.written.map Prod.fst) ++ c.created, some [td]⟩

/-- The effect of a successful shutil.rmtree call: the directory and
everything below it are removed. Whether the call succeeds is the
environment's rmtreeRes outcome, dispatched in cleanup. -/
def rmtree (d : Path) (fs : List Path) : List Path :=
  fs.filter (fun p => !(List.isPrefixOf d p))

/-- The finally-block of run_audio_to_midi_job: if a temp directory was
created and still exists, call shutil.rmtree inside try/except — on success
its subtree is removed, on failure the exception is caught and only logged,
so the tree remains. Cleanup itself therefore never raises (it is a total
function for every rmtree outcome) and is a no-op when the directory is
absent. -/
def cleanup (rm : Except String Unit) (temp_dir : Option Path)
    (fs : List Path) : List Path :=
  match temp_dir with
  | none => fs
  | some d =>
    if d ∈ fs then
      match rm with
      | Except.ok _ => rmtree d fs
      | Except.error _ => fs
    else fs

/-- Each status update is sent through update_status_api with the next
delivery outcome from posts; outcomes beyond the list default to success
(they are irrelevant: every outcome is swallowed). -/
def mkCallbacks (backend_url : String) (posts : List PostOutcome)
    (job_id : String) : List StatusUpdateRequest → List SentCallback
  | [] => []
  | u :: us =>
      update_status_api backend_url (posts.headD PostOutcome.ok2xx) job_id u ::
        mkCallbacks backend_url posts.tail job_id us

/-- Everything observable about one run of run_audio_to_midi_job. -/
structure JobResult where
  updates : List StatusUpdateRequest
  callbacks : List SentCallback
  stages : List Stage
  requests : Nat
  puts : List Bytes
  fsAfter : List Path
  tempDirCreated : Option Path
deriving DecidableEq

/-- worker.run_audio_to_midi_job: the try/except pipeline followed by the
finally-block cleanup; every status update is delivered (best-effort) via
update_status_api. -/
def run_audio_to_midi_job (backend_url : String) (env : JobEnv)
    (posts : List PostOutcome) (r : ProcessingRequest) : JobResult :=
  let t := jobTry env r
  { updates := t.updates
    callbacks := mkCallbacks backend_url posts r.job_id t.updates
    stages := t.stages
    requests := t.requests
    puts := t.puts
    fsAfter := cleanup env.rmtreeRes t.temp_dir t.fs
    tempDirCreated := t.temp_dir }

/-! ### API surface (main.py) -/

/-- The final observation of the synchronous HEAD check of the input URL:
either a final response (after redirect following) with its status code, or
a transport error. -/
inductive HeadOutcome
  | response (code : Nat)
  | netError (msg : String)
deriving DecidableEq

/-- main.validate_url_is_accessible: HEAD the URL; raise_for_status accepts
exactly the 2xx range; an httpx.RequestError or httpx.HTTPStatusError is
re-raised as an HTTPException with status 400 and a short detail. -/
def validate_url_is_accessible (head : HeadOutcome) : Except (Nat × String) Unit :=
  match head with
  | HeadOutcome.netError _ =>
      Except.error (400, "Invalid input file URL: Could not connect or timed out.")
  | HeadOutcome.response code =>
      if 200 ≤ code ∧ code < 300 then Except.ok ()
      else Except.error (400,
        "Invalid input file URL: Resource returned status " ++ toString code ++ ".")

/-- The observable result of POST /process: either 202 with the success body
and the background tasks scheduled, or an error status with the body produced
by the HTTPException handler, and nothing scheduled. -/
inductive SubmissionResult
  | accepted (status_code : Nat) (body : SuccessResponse)
      (scheduled : List ProcessingRequest)
  | rejected (status_code : Nat) (body : ErrorResponse)
deriving DecidableEq

/-- main.create_processing_job: validate the input URL synchronously; only
if that passes, add run_audio_to_midi_job to the background tasks and return
202; an HTTPException becomes a rejected response via http_exception_handler
(ErrorResponse with error "INVALID_INPUT"). -/
def create_processing_job (head : HeadOutcome) (r : ProcessingRequest) :
    SubmissionResult :=
  match validate_url_is_accessible head with
  | Except.error (code, detail) =>
      SubmissionResult.rejected code ⟨false, detail, some "INVALID_INPUT"⟩
  | Except.ok _ =>
      SubmissionResult.accepted 202
        ⟨true, "Processing accepted and initiated successfully.", r.job_id⟩ [r]

/-- The background jobs a submission scheduled (none when rejected, so no
callback is ever sent for that submission). -/
def scheduledJobs : SubmissionResult → List ProcessingRequest
  | SubmissionResult.accepted _ _ s => s
  | SubmissionResult.rejected _ _ => []

/-- Whether the submission was accepted. -/
def isAccepted : SubmissionResult → Bool
  | SubmissionResult.accepted _ _ _ => true
  | SubmissionResult.rejected _ _ => false

/-- The HTTP status code of the submission response. -/
def submissionStatusCode : SubmissionResult → Nat
  | SubmissionResult.accepted c _ _ => c
  | SubmissionResult.rejected c _ => c

/-- Whether a status update is the terminal "completed" update. -/
def isCompletedUpd (u : StatusUpdateRequest) : Bool :=
  match u.status with
  | Status.completed => true
  | _ => false

/-- Whether a status update is the terminal "failed" update. -/
def isFailedUpd (u : StatusUpdateRequest) : Bool :=
  match u.status with
  | Status.failed => true
  | _ => false

/-- Whether a status update is terminal (completed or failed). -/
def isTerminalUpd (u : StatusUpdateRequest) : Bool :=
  match u.status with
  | Status.processing => false
  | _ => true

/-! ### Helper lemmas -/

lemma update_status_api_eq (b : String) (o : PostOutcome) (j : String)
    (p : StatusUpdateRequest) :
    update_status_api b o j p = ⟨mkCallbackUrl b j, p, Except.ok ()⟩ := by
  cases o <;> rfl

lemma mkCallbacks_eq (b : String) (posts : List PostOutcome) (j : String)
    (us : List StatusUpdateRequest) :
    mkCallbacks b posts j us =
      us.map (fun u => ⟨mkCallbackUrl b j, u, Except.ok ()⟩) := by
  induction us generalizing posts with
  | nil => rfl
  | cons u us ih => simp [mkCallbacks, update_status_api_eq, ih]

lemma isPrefixOf_head (a : String) (l : List String) :
    List.isPrefixOf [a] (a :: l) = true := by
  simp [List.isPrefixOf]

lemma download_file_written_of_error (net : Except String Bytes) (td : Path)
    (n e : String) (h : (download_file net td n).result = Except.error e) :
    (download_file net td n).written = [] := by
  by_cases hm : pyLower (pathlibSuffix n) ∈ SUPPORTED_AUDIO_FORMATS
  · cases hnet : net <;> simp [download_file, hm, hnet] at h ⊢
  · simp [download_file, hm]

lemma download_written_under (net : Except String Bytes) (td : String) (n : String) :
    ∀ pr ∈ (download_file net [td] n).written, List.isPrefixOf [td] pr.1 = true := by
  intro pr hpr
  by_cases hm : pyLower (pathlibSuffix n) ∈ SUPPORTED_AUDIO_FORMATS
  · cases hnet : net with
    | error e => simp [download_file, hm, hnet] at hpr
    | ok content =>
        simp [download_file, hm, hnet] at hpr
        rw [hpr]
        exact isPrefixOf_head td _
  · simp [download_file, hm] at hpr

lemma convert_created_under (predict : Except String (List (String × Bytes)))
    (td j : String) :
    ∀ p ∈ (convert_to_midi predict [td] j).created,
      List.isPrefixOf [td] p = true := by
  intro p hp
  rcases hpr : predict with e | files
  · simp [convert_to_midi, hpr] at hp
    rw [hp]
    exact isPrefixOf_head td _
  · rcases hg : globMid files with _ | ⟨f, rest⟩ <;>
      simp [convert_to_midi, hpr, hg] at hp <;>
      rcases hp with hp | ⟨x, hx, hp⟩ <;>
      subst hp <;> exact isPrefixOf_head td _

lemma rmtree_eq_nil (d : Path) (fs : List Path)
    (h : ∀ p ∈ fs, List.isPrefixOf d p = true) : rmtree d fs = [] := by
  rw [rmtree, List.filter_eq_nil_iff]
  intro p hp
  simp [h p hp]

lemma cleanup_of_under (td : String) (fs : List Path)
    (hmem : [td] ∈ fs) (hund : ∀ p ∈ fs, List.isPrefixOf [td] p = true) :
    cleanup (Except.ok ()) (some [td]) fs = [] := by
  simp only [cleanup, if_pos hmem]
  exact rmtree_eq_nil _ _ hund

/-- A failed rmtree is caught and logged; the filesystem is left unchanged. -/
lemma cleanup_error (e : String) (o : Option Path) (fs : List Path) :
    cleanup (Except.error e) o fs = fs := by
  rcases o with _ | d
  · rfl
  · by_cases hm : d ∈ fs <;> simp [cleanup, hm]

/-! Branch equations for the orchestrator's try-block. -/

lemma jobTry_mkdtemp_error (env : JobEnv) (r : ProcessingRequest) (e : String)
    (h : env.mkdtempRes = Except.error e) :
    jobTry env r = ⟨[send_update r Status.failed e 0 none], [Stage.mkTemp],
      0, [], [], none⟩ := by
  simp only [jobTry, h]

lemma jobTry_download_error (env : JobEnv) (r : ProcessingRequest) (td e : String)
    (h1 : env.mkdtempRes = Except.ok td)
    (h2 : (download_file env.netGet [td] r.metadata.file_name).result = Except.error e) :
    jobTry env r = ⟨[send_update r Status.processing "Downloading audio file..." 10 none,
        send_update r Status.failed e 0 none],
      [Stage.mkTemp, Stage.download],
      (download_file env.netGet [td] r.metadata.file_name).requests, [],
      [td] :: (download_file env.netGet [td] r.metadata.file_name).written.map Prod.fst,
      some [td]⟩ := by
  simp only [jobTry, h1, h2]

lemma jobTry_convert_error (env : JobEnv) (r : ProcessingRequest) (td : String)
    (ap : Path) (e : String)
    (h1 : env.mkdtempRes = Except.ok td)
    (h2 : (download_file env.netGet [td] r.metadata.file_name).result = Except.ok ap)
    (h3 : (convert_to_midi env.predict [td] r.job_id).result = Except.error e) :
    jobTry env r = ⟨[send_update r Status.processing "Downloading audio file..." 10 none,
        send_update r Status.processing "Converting audio to MIDI..." 50 none,
        send_update r Status.failed e 0 none],
      [Stage.mkTemp, Stage.download, Stage.convert],
      (download_file env.netGet [td] r.metadata.file_name).requests, [],
      ([td] :: (download_file env.netGet [td] r.metadata.file_name).written.map Prod.fst)
        ++ (convert_to_midi env.predict [td] r.job_id).created,
      some [td]⟩ := by
  simp only [jobTry, h1, h2, h3]

lemma jobTry_upload_error (env : JobEnv) (r : ProcessingRequest) (td : String)
    (ap mp : Path) (mb : Bytes) (e : String)
    (h1 : env.mkdtempRes = Except.ok td)
    (h2 : (download_file env.netGet [td] r.metadata.file_name).result = Except.ok ap)
    (h3 : (convert_to_midi env.predict [td] r.job_id).result = Except.ok (mp, mb))
    (h4 : env.netPut = Except.error e) :
    jobTry env r = ⟨[send_update r Status.processing "Downloading audio file..." 10 none,
        send_update r Status.processing "Converting audio to MIDI..." 50 none,
        send_update r Status.processing "Uploading converted MIDI file..." 90 none,
        send_update r Status.failed e 0 none],
      [Stage.mkTemp, Stage.download, Stage.convert, Stage.upload],
      (download_file env.netGet [td] r.metadata.file_name).requests, [mb],
      ([td] :: (download_file env.netGet [td] r.metadata.file_name).written.map Prod.fst)
        ++ (convert_to_midi env.predict [td] r.job_id).created,
      some [td]⟩ := by
  simp only [jobTry, h1, h2, h3, upload_file, h4]

lemma jobTry_happy (env : JobEnv) (r : ProcessingRequest) (td : String)
    (ap mp : Path) (mb : Bytes)
    (h1 : env.mkdtempRes = Except.ok td)
    (h2 : (download_file env.netGet [td] r.metadata.file_name).result = Except.ok ap)
    (h3 : (convert_to_midi env.predict [td] r.job_id).result = Except.ok (mp, mb))
    (h4 : env.netPut = Except.ok ()) :
    jobTry env r = ⟨[send_update r Status.processing "Downloading audio file..." 10 none,
        send_update r Status.processing "Converting audio to MIDI..." 50 none,
        send_update r Status.processing "Uploading converted MIDI file..." 90 none,
        send_update r Status.completed "Processing completed successfully." 100
          (some mb.length)],
      [Stage.mkTemp, Stage.download, Stage.convert, Stage.upload],
      (download_file env.netGet [td] r.metadata.file_name).requests, [mb],
      ([td] :: (download_file env.netGet [td] r.metadata.file_name).written.map Prod.fst)
        ++ (convert_to_midi env.predict [td] r.job_id).created,
      some [td]⟩ := by
  simp only [jobTry, h1, h2, h3, upload_file, h4]

/-- The five possible sequences of status updates a job can send: a failure
right after stage 1, 2, 3 or 4, or the full happy path. -/
lemma updates_shape (env : JobEnv) (r : ProcessingRequest) :
    (∃ e, (jobTry env r).updates = [send_update r Status.failed e 0 none]) ∨
    (∃ e, (jobTry env r).updates =
      [send_update r Status.processing "Downloading audio file..." 10 none,
       send_update r Status.failed e 0 none]) ∨
    (∃ e, (jobTry env r).updates =
      [send_update r Status.processing "Downloading audio file..." 10 none,
       send_update r Status.processing "Converting audio to MIDI..." 50 none,
       send_update r Status.failed e 0 none]) ∨
    (∃ e, (jobTry env r).updates =
      [send_update r Status.processing "Downloading audio file..." 10 none,
       send_update r Status.processing "Converting audio to MIDI..." 50 none,
       send_update r Status.processing "Uploading converted MIDI file..." 90 none,
       send_update r Status.failed e 0 none]) ∨
    (∃ n, (jobTry env r).updates =
      [send_update r Status.processing "Downloading audio file..." 10 none,
       send_update r Status.processing "Converting audio to MIDI..." 50 none,
       send_update r Status.processing "Uploading converted MIDI file..." 90 none,
       send_update r Status.completed "Processing completed successfully." 100 (some n)]) := by
  rcases henv : env.mkdtempRes with e | td
  · exact Or.inl ⟨e, by rw [jobTry_mkdtemp_error env r e henv]⟩
  · rcases hd : (download_file env.netGet [td] r.metadata.file_name).result with e | ap
    · exact Or.inr (Or.inl ⟨e, by rw [jobTry_download_error env r td e henv hd]⟩)
    · rcases hc : (convert_to_midi env.predict [td] r.job_id).result with e | ⟨mp, mb⟩
      · exact Or.inr (Or.inr (Or.inl ⟨e,
          by rw [jobTry_convert_error env r td ap e henv hd hc]⟩))
      · rcases hp : env.netPut with e | u
        · exact Or.inr (Or.inr (Or.inr (Or.inl ⟨e,
            by rw [jobTry_upload_error env r td ap mp mb e henv hd hc hp]⟩)))
        · exact Or.inr (Or.inr (Or.inr (Or.inr ⟨mb.length,
            by rw [jobTry_happy env r td ap mp mb henv hd hc hp]⟩)))

/-- Every status update a job sends has progress in 0..100 and carries the
request's job id as python_job_id. -/
lemma updates_facts (env : JobEnv) (r : ProcessingRequest) :
    ∀ u ∈ (jobTry env r).updates,
      (0 ≤ u.progress ∧ u.progress ≤ 100) ∧ u.python_job_id = r.job_id := by
  rcases updates_shape env r with ⟨e, h⟩ | ⟨e, h⟩ | ⟨e, h⟩ | ⟨e, h⟩ | ⟨n, h⟩ <;>
    rw [h] <;> intro u hu <;> simp at hu <;>
    rcases hu with rfl | rfl | rfl | rfl <;> simp [send_update]

/-- When the rmtree call succeeds, the finally-block leaves the filesystem
empty of the job's entries: everything the job created lives under its temp
directory. -/
lemma run_fsAfter_nil (b : String) (env : JobEnv) (posts : List PostOutcome)
    (r : ProcessingRequest) (hrm : env.rmtreeRes = Except.ok ()) :
    (run_audio_to_midi_job b env posts r).fsAfter = [] := by
  show cleanup env.rmtreeRes (jobTry env r).temp_dir (jobTry env r).fs = []
  rw [hrm]
  rcases henv : env.mkdtempRes with e | td
  · rw [jobTry_mkdtemp_error env r e henv]
    rfl
  · have hmem : ∀ rest : List Path, [td] ∈ [td] :: rest := fun rest => List.mem_cons_self _ _
    rcases hd : (download_file env.netGet [td] r.metadata.file_name).result with e | ap
    · rw [jobTry_download_error env r td e henv hd]
      apply cleanup_of_under td _ (hmem _)
      intro p hp
      rcases List.mem_cons.mp hp with rfl | hp
      · exact isPrefixOf_head td []
      · obtain ⟨pr, hpr, rfl⟩ := List.mem_map.mp hp
        exact download_written_under env.netGet td r.metadata.file_name pr hpr
    · have hunder : ∀ p ∈ ([td] :: (download_file env.netGet [td]
          r.metadata.file_name).written.map Prod.fst)
            ++ (convert_to_midi env.predict [td] r.job_id).created,
          List.isPrefixOf [td] p = true := by
        intro p hp
        rcases List.mem_append.mp hp with hp | hp
        · rcases List.mem_cons.mp hp with rfl | hp
          · exact isPrefixOf_head td []
          · obtain ⟨pr, hpr, rfl⟩ := List.mem_map.mp hp
            exact download_written_under env.netGet td r.metadata.file_name pr hpr
        · exact convert_created_under env.predict td r.job_id p hp
      rcases hc : (convert_to_midi env.predict [td] r.job_id).result with e | ⟨mp, mb⟩
      · rw [jobTry_convert_error env r td ap e henv hd hc]
        exact cleanup_of_under td _ (List.mem_append_left _ (hmem _)) hunder
      · rcases hp : env.netPut with e | u
        · rw [jobTry_upload_error env r td ap mp mb e henv hd hc hp]
          exact cleanup_of_under td _ (List.mem_append_left _ (hmem _)) hunder
        · rw [jobTry_happy env r td ap mp mb henv hd hc hp]
          exact cleanup_of_under td _ (List.mem_append_left _ (hmem _)) hunder

/-- Whenever a temp directory was created, it is present in the filesystem
the try-block leaves behind (it heads every created-entries list). -/
lemma jobTry_temp_mem (env : JobEnv) (r : ProcessingRequest) (p : Path)
    (h : (jobTry env r).temp_dir = some p) : p ∈ (jobTry env r).fs := by
  rcases henv : env.mkdtempRes with e | td
  · rw [jobTry_mkdtemp_error env r e henv] at h
    cases h
  · rcases hd : (download_file env.netGet [td] r.metadata.file_name).result with e | ap
    · rw [jobTry_download_error env r td e henv hd] at h ⊢
      simp at h
      simp [← h]
    · rcases hc : (convert_to_midi env.predict [td] r.job_id).result with e | ⟨mp, mb⟩
      · rw [jobTry_convert_error env r td ap e henv hd hc] at h ⊢
        simp at h
        simp [← h]
      · rcases hp : env.netPut with e | u
        · rw [jobTry_upload_error env r td ap mp mb e henv hd hc hp] at h ⊢
          simp at h
          simp [← h]
        · rw [jobTry_happy env r td ap mp mb henv hd hc hp] at h ⊢
          simp at h
          simp [← h]

/-! ### Concrete fixtures used by the witnesses and counterexamples -/

/-- A representative processing request. -/
def reqW : ProcessingRequest :=
  ⟨"job-1", "user-1", "http://files.example/in", "http://files.example/out",
    ⟨"audio/wav", "song.wav", "file-1", none⟩⟩

/-- An environment in which every stage succeeds, cleanup included. -/
def envHappy : JobEnv :=
  ⟨Except.ok "T", Except.ok [1, 2, 3],
    Except.ok [("song_basic_pitch.mid", [7, 7])], Except.ok (), Except.ok ()⟩

/-- An environment in which the download GET fails. -/
def envDlFail : JobEnv :=
  ⟨Except.ok "T", Except.error "boom", Except.ok [], Except.ok (), Except.ok ()⟩

/-- An environment in which creating the temp directory fails. -/
def envMkFail : JobEnv :=
  ⟨Except.error "disk full", Except.ok [], Except.ok [], Except.ok (), Except.ok ()⟩

/-- An environment whose network would respond, paired with a request whose
file name has a disallowed extension. -/
def envBadExt : JobEnv :=
  ⟨Except.ok "T", Except.ok [9], Except.ok [], Except.ok (), Except.ok ()⟩

/-- An environment in which the download fails and the finally-block's
shutil.rmtree call also fails (its exception is caught and logged). -/
def envRmFail : JobEnv :=
  ⟨Except.ok "T", Except.error "boom", Except.ok [], Except.ok (),
    Except.error "Permission denied"⟩

/-- A request naming a file with an extension outside the allow-list. -/
def reqBadExt : ProcessingRequest :=
  ⟨"job-2", "user-1", "http://files.example/in", "http://files.example/out",
    ⟨"text/plain", "document.txt", "file-2", none⟩⟩

/-- The single callback sent when running reqW in envMkFail. -/
def cbW : SentCallback :=
  ⟨"http://localhost:3000/api/users/jobs/job-1/callback",
    send_update reqW Status.failed "disk full" 0 none, Except.ok ()⟩

/-! ### Claims -/

/-- C1: for every job in which download, conversion and upload all succeed,
run_audio_to_midi_job sends exactly one "completed" status update, with
progress 100 and size equal to the byte length of the MIDI artifact that the
upload stage read and PUT to the output URL (uploading L bytes yields
size = L exactly). -/
theorem claim_C1_happy_completed_size (b : String) (env : JobEnv)
    (posts : List PostOutcome) (r : ProcessingRequest) (td : String)
    (ap mp : Path) (mb : Bytes)
    (h1 : env.mkdtempRes = Except.ok td)
    (h2 : (download_file env.netGet [td] r.metadata.file_name).result = Except.ok ap)
    (h3 : (convert_to_midi env.predict [td] r.job_id).result = Except.ok (mp, mb))
    (h4 : env.netPut = Except.ok ()) :
    (run_audio_to_midi_job b env posts r).puts = [mb] ∧
    (run_audio_to_midi_job b env posts r).updates.filter isCompletedUpd =
      [send_update r Status.completed "Processing completed successfully." 100
        (some mb.length)] := by
  have ht := jobTry_happy env r td ap mp mb h1 h2 h3 h4
  constructor
  · show (jobTry env r).puts = [mb]
    rw [ht]
  · show (jobTry env r).updates.filter isCompletedUpd = _
    rw [ht]
    simp [send_update, isCompletedUpd, List.filter]

theorem claim_C1_witness :
    (run_audio_to_midi_job "http://localhost:3000" envHappy [] reqW).puts = [[7, 7]] ∧
    (run_audio_to_midi_job "http://localhost:3000" envHappy [] reqW).updates.filter
        isCompletedUpd =
      [send_update reqW Status.completed "Processing completed successfully." 100
        (some 2)] :=
  claim_C1_happy_completed_size "http://localhost:3000" envHappy [] reqW "T"
    ["T", "input_audio.wav"] ["T", "midi_output", "song_basic_pitch.mid"] [7, 7]
    rfl rfl rfl rfl

/-- C2: whenever a stage (temp-dir creation, download, conversion or upload)
raises, no subsequent stage executes and exactly one "failed" update is sent,
with progress 0 and the raising exception's message. The four conjuncts cover
the four raising stages. -/
theorem claim_C2_failure_aborts (b : String) (env : JobEnv)
    (posts : List PostOutcome) (r : ProcessingRequest) :
    (∀ e, env.mkdtempRes = Except.error e →
      (run_audio_to_midi_job b env posts r).updates =
        [send_update r Status.failed e 0 none] ∧
      (run_audio_to_midi_job b env posts r).stages = [Stage.mkTemp] ∧
      (run_audio_to_midi_job b env posts r).requests = 0 ∧
      (run_audio_to_midi_job b env posts r).puts = []) ∧
    (∀ td e, env.mkdtempRes = Except.ok td →
      (download_file env.netGet [td] r.metadata.file_name).result = Except.error e →
      (run_audio_to_midi_job b env posts r).updates =
        [send_update r Status.processing "Downloading audio file..." 10 none,
         send_update r Status.failed e 0 none] ∧
      (run_audio_to_midi_job b env posts r).stages = [Stage.mkTemp, Stage.download] ∧
      (run_audio_to_midi_job b env posts r).puts = []) ∧
    (∀ td ap e, env.mkdtempRes = Except.ok td →
      (download_file env.netGet [td] r.metadata.file_name).result = Except.ok ap →
      (convert_to_midi env.predict [td] r.job_id).result = Except.error e →
      (run_audio_to_midi_job b env posts r).updates =
        [send_update r Status.processing "Downloading audio file..." 10 none,
         send_update r Status.processing "Converting audio to MIDI..." 50 none,
         send_update r Status.failed e 0 none] ∧
      (run_audio_to_midi_job b env posts r).stages =
        [Stage.mkTemp, Stage.download, Stage.convert] ∧
      (run_audio_to_midi_job b env posts r).puts = []) ∧
    (∀ td ap mp mb e, env.mkdtempRes = Except.ok td →
      (download_file env.netGet [td] r.metadata.file_name).result = Except.ok ap →
      (convert_to_midi env.predict [td] r.job_id).result = Except.ok (mp, mb) →
      env.netPut = Except.error e →
      (run_audio_to_midi_job b env posts r).updates =
        [send_update r Status.processing "Downloading audio file..." 10 none,
         send_update r Status.processing "Converting audio to MIDI..." 50 none,
         send_update r Status.processing "Uploading converted MIDI file..." 90 none,
         send_update r Status.failed e 0 none] ∧
      (run_audio_to_midi_job b env posts r).stages =
        [Stage.mkTemp, Stage.download, Stage.convert, Stage.upload] ∧
      (run_audio_to_midi_job b env posts r).updates.filter isCompletedUpd = []) := by
  refine ⟨?_, ?_, ?_, ?_⟩
  · intro e he
    have ht := jobTry_mkdtemp_error env r e he
    refine ⟨?_, ?_, ?_, ?_⟩
    · show (jobTry env r).updates = _
      rw [ht]
    · show (jobTry env r).stages = _
      rw [ht]
    · show (jobTry env r).requests = _
      rw [ht]
    · show (jobTry env r).puts = _
      rw [ht]
  · intro td e h1 h2
    have ht := jobTry_download_error env r td e h1 h2
    refine ⟨?_, ?_, ?_⟩
    · show (jobTry env r).updates = _
      rw [ht]
    · show (jobTry env r).stages = _
      rw [ht]
    · show (jobTry env r).puts = _
      rw [ht]
  · intro td ap e h1 h2 h3
    have ht := jobTry_convert_error env r td ap e h1 h2 h3
    refine ⟨?_, ?_, ?_⟩
    · show (jobTry env r).updates = _
      rw [ht]
    · show (jobTry env r).stages = _
      rw [ht]
    · show (jobTry env r).puts = _
      rw [ht]
  · intro td ap mp mb e h1 h2 h3 h4
    have ht := jobTry_upload_error env r td ap mp mb e h1 h2 h3 h4
    refine ⟨?_, ?_, ?_⟩
    · show (jobTry env r).updates = _
      rw [ht]
    · show (jobTry env r).stages = _
      rw [ht]
    · show (jobTry env r).updates.filter isCompletedUpd = _
      rw [ht]
      simp [send_update, isCompletedUpd, List.filter]

theorem claim_C2_witness :
    (run_audio_to_midi_job "http://localhost:3000" envDlFail [] reqW).updates =
      [send_update reqW Status.processing "Downloading audio file..." 10 none,
       send_update reqW Status.failed "boom" 0 none] ∧
    (run_audio_to_midi_job "http://localhost:3000" envDlFail [] reqW).stages =
      [Stage.mkTemp, Stage.download] ∧
    (run_audio_to_midi_job "http://localhost:3000" envDlFail [] reqW).puts = [] :=
  (claim_C2_failure_aborts "http://localhost:3000" envDlFail [] reqW).2.1 "T" "boom"
    rfl rfl

/-- C3 as stated is false: removal of the temp directory is only attempted.
When the finally-block's shutil.rmtree call raises, the worker catches and
logs the exception and the directory is still present after
run_audio_to_midi_job returns, as this concrete run shows. -/
theorem claim_C3_counterexample :
    (run_audio_to_midi_job "http://localhost:3000" envRmFail [] reqW).tempDirCreated =
      some ["T"] ∧
    ["T"] ∈ (run_audio_to_midi_job "http://localhost:3000" envRmFail [] reqW).fsAfter :=
  ⟨rfl, by decide⟩

/-- C3 (amended): on every exit path the cleanup step runs before
run_audio_to_midi_job returns and never raises (a rmtree failure is caught
and logged). When the rmtree call succeeds, the temp directory created at
job start is absent afterward; when it fails, the directory remains.
Cleanup on an already-absent directory is a no-op, and running cleanup
twice equals running it once. -/
theorem claim_C3_amended :
    (∀ (b : String) (env : JobEnv) (posts : List PostOutcome)
        (r : ProcessingRequest) (p : Path),
      env.rmtreeRes = Except.ok () →
      (run_audio_to_midi_job b env posts r).tempDirCreated = some p →
      p ∉ (run_audio_to_midi_job b env posts r).fsAfter) ∧
    (∀ (b : String) (env : JobEnv) (posts : List PostOutcome)
        (r : ProcessingRequest) (p : Path) (e : String),
      env.rmtreeRes = Except.error e →
      (run_audio_to_midi_job b env posts r).tempDirCreated = some p →
      p ∈ (run_audio_to_midi_job b env posts r).fsAfter) ∧
    (∀ (rm : Except String Unit) (d : Path) (fs : List Path),
      d ∉ fs → cleanup rm (some d) fs = fs) ∧
    (∀ (rm : Except String Unit) (o : Option Path) (fs : List Path),
      cleanup rm o (cleanup rm o fs) = cleanup rm o fs) := by
  refine ⟨?_, ?_, ?_, ?_⟩
  · intro b env posts r p hrm _hp
    rw [run_fsAfter_nil b env posts r hrm]
    simp
  · intro b env posts r p e hrm hp
    show p ∈ cleanup env.rmtreeRes (jobTry env r).temp_dir (jobTry env r).fs
    rw [hrm, cleanup_error]
    exact jobTry_temp_mem env r p hp
  · intro rm d fs h
    simp [cleanup, h]
  · intro rm o fs
    rcases rm with e | u
    · rw [cleanup_error, cleanup_error]
    · rcases o with _ | d
      · rfl
      · by_cases hm : d ∈ fs
        · have hnot : d ∉ rmtree d fs := by
            intro hc
            have hf := List.of_mem_filter hc
            have hdd : List.isPrefixOf d d = true :=
              List.isPrefixOf_iff_prefix.mpr (List.prefix_refl d)
            simp [hdd] at hf
          simp [cleanup, hm, hnot]
        · simp [cleanup, hm]

theorem claim_C3_amended_witness :
    (["T"] ∉ (run_audio_to_midi_job "http://localhost:3000" envHappy [] reqW).fsAfter) ∧
    (["T"] ∈ (run_audio_to_midi_job "http://localhost:3000" envRmFail [] reqW).fsAfter) ∧
    cleanup (Except.ok ()) (some ["gone"]) [["other"]] = [["other"]] :=
  ⟨claim_C3_amended.1 "http://localhost:3000" envHappy [] reqW ["T"] rfl rfl,
   claim_C3_amended.2.1 "http://localhost:3000" envRmFail [] reqW ["T"]
     "Permission denied" rfl rfl,
   claim_C3_amended.2.2.1 (Except.ok ()) ["gone"] [["other"]] (by simp)⟩

/-- C4 as stated is false: a job whose download stage fails sends the
progress sequence 10 then 0, which is not monotonically non-decreasing. -/
theorem claim_C4_counterexample :
    ¬ List.Chain' (fun a b : Int => a ≤ b)
      ((run_audio_to_midi_job "http://localhost:3000" envDlFail [] reqW).updates.map
        (fun u => u.progress)) := by
  have h : (run_audio_to_midi_job "http://localhost:3000" envDlFail [] reqW).updates.map
      (fun u => u.progress) = [10, 0] := by rfl
  rw [h, List.chain'_cons]
  rintro ⟨h10, -⟩
  norm_num at h10

/-- C4 (amended): every job sends exactly one terminal (completed or failed)
status update, which is the last update sent; in the default (fully
successful) flow the progress values are 10, 50, 90, 100, monotonically
non-decreasing. A failed job's terminal update carries progress 0, which may
be lower than earlier progress values. -/
theorem claim_C4_amended :
    (∀ (b : String) (env : JobEnv) (posts : List PostOutcome) (r : ProcessingRequest),
      ((run_audio_to_midi_job b env posts r).updates.filter isTerminalUpd).length = 1 ∧
      ∀ u ∈ (run_audio_to_midi_job b env posts r).updates.dropLast,
        u.status = Status.processing) ∧
    (∀ (b : String) (env : JobEnv) (posts : List PostOutcome) (r : ProcessingRequest)
        (td : String) (ap mp : Path) (mb : Bytes),
      env.mkdtempRes = Except.ok td →
      (download_file env.netGet [td] r.metadata.file_name).result = Except.ok ap →
      (convert_to_midi env.predict [td] r.job_id).result = Except.ok (mp, mb) →
      env.netPut = Except.ok () →
      (run_audio_to_midi_job b env posts r).updates.map (fun u => u.progress) =
        [10, 50, 90, 100]) := by
  constructor
  · intro b env posts r
    have hsh := updates_shape env r
    constructor
    · show ((jobTry env r).updates.filter isTerminalUpd).length = 1
      rcases hsh with ⟨e, h⟩ | ⟨e, h⟩ | ⟨e, h⟩ | ⟨e, h⟩ | ⟨n, h⟩ <;> rw [h] <;>
        simp [send_update, isTerminalUpd, List.filter]
    · show ∀ u ∈ (jobTry env r).updates.dropLast, u.status = Status.processing
      rcases hsh with ⟨e, h⟩ | ⟨e, h⟩ | ⟨e, h⟩ | ⟨e, h⟩ | ⟨n, h⟩ <;> rw [h] <;>
        intro u hu <;> simp [List.dropLast] at hu <;>
        rcases hu with rfl | rfl | rfl <;> rfl
  · intro b env posts r td ap mp mb h1 h2 h3 h4
    have ht := jobTry_happy env r td ap mp mb h1 h2 h3 h4
    show (jobTry env r).updates.map (fun u => u.progress) = _
    rw [ht]
    simp [send_update]

theorem claim_C4_amended_witness :
    (run_audio_to_midi_job "http://localhost:3000" envHappy [] reqW).updates.map
      (fun u => u.progress) = [10, 50, 90, 100] :=
  claim_C4_amended.2 "http://localhost:3000" envHappy [] reqW "T"
    ["T", "input_audio.wav"] ["T", "midi_output", "song_basic_pitch.mid"] [7, 7]
    rfl rfl rfl rfl

/-- C5: for every file name whose case-normalised extension is outside the
allow-list, download_file raises before issuing any network request (zero
GETs, nothing written), and a job with such a file name issues zero GETs. -/
theorem claim_C5_reject_before_network :
    (∀ (net : Except String Bytes) (temp_dir : Path) (file_name : String),
      pyLower (pathlibSuffix file_name) ∉ SUPPORTED_AUDIO_FORMATS →
      (download_file net temp_dir file_name).requests = 0 ∧
      (download_file net temp_dir file_name).result =
        Except.error ("Unsupported audio format: " ++ pyLower (pathlibSuffix file_name)) ∧
      (download_file net temp_dir file_name).written = []) ∧
    (∀ (b : String) (env : JobEnv) (posts : List PostOutcome) (r : ProcessingRequest)
        (td : String),
      env.mkdtempRes = Except.ok td →
      pyLower (pathlibSuffix r.metadata.file_name) ∉ SUPPORTED_AUDIO_FORMATS →
      (run_audio_to_midi_job b env posts r).requests = 0) := by
  constructor
  · intro net temp_dir file_name h
    refine ⟨?_, ?_, ?_⟩ <;> simp [download_file, h]
  · intro b env posts r td h1 h
    have hd : (download_file env.netGet [td] r.metadata.file_name).result =
        Except.error ("Unsupported audio format: " ++
          pyLower (pathlibSuffix r.metadata.file_name)) := by
      simp [download_file, h]
    have ht := jobTry_download_error env r td _ h1 hd
    show (jobTry env r).requests = 0
    rw [ht]
    simp [download_file, h]

theorem claim_C5_witness :
    ((download_file (Except.ok [9]) ["T"] "document.txt").requests = 0 ∧
     (download_file (Except.ok [9]) ["T"] "document.txt").result =
       Except.error ("Unsupported audio format: " ++
         pyLower (pathlibSuffix "document.txt")) ∧
     (download_file (Except.ok [9]) ["T"] "document.txt").written = []) ∧
    (run_audio_to_midi_job "http://localhost:3000" envBadExt [] reqBadExt).requests = 0 :=
  ⟨claim_C5_reject_before_network.1 (Except.ok [9]) ["T"] "document.txt" (by decide),
   claim_C5_reject_before_network.2 "http://localhost:3000" envBadExt [] reqBadExt "T"
     rfl (by decide)⟩

/-- C6: a submission is accepted (202, body echoing the submitted jobId,
background task scheduled) iff the synchronous HEAD check of the input URL
yields a 2xx final response; any non-2xx final response or network error is
rejected synchronously with status 400 and schedules nothing, so no callback
is ever sent for that submission. -/
theorem claim_C6_head_gate (head : HeadOutcome) (r : ProcessingRequest) :
    (isAccepted (create_processing_job head r) = true ↔
      ∃ c, head = HeadOutcome.response c ∧ 200 ≤ c ∧ c < 300) ∧
    (∀ c, head = HeadOutcome.response c → 200 ≤ c → c < 300 →
      create_processing_job head r = SubmissionResult.accepted 202
        ⟨true, "Processing accepted and initiated successfully.", r.job_id⟩ [r]) ∧
    (isAccepted (create_processing_job head r) = false →
      submissionStatusCode (create_processing_job head r) = 400 ∧
      scheduledJobs (create_processing_job head r) = []) := by
  rcases head with c | m
  · by_cases h : 200 ≤ c ∧ c < 300
    · refine ⟨?_, ?_, ?_⟩
      · simp only [create_processing_job, validate_url_is_accessible, if_pos h]
        constructor
        · intro _
          exact ⟨c, rfl, h⟩
        · intro _
          rfl
      · intro c' hc' _ _
        cases hc'
        simp [create_processing_job, validate_url_is_accessible, h]
      · intro hfalse
        simp [create_processing_job, validate_url_is_accessible, h, isAccepted] at hfalse
    · refine ⟨?_, ?_, ?_⟩
      · simp only [create_processing_job, validate_url_is_accessible, if_neg h]
        constructor
        · intro hc
          simp [isAccepted] at hc
        · rintro ⟨c', hc', hle, hlt⟩
          cases hc'
          exact absurd ⟨hle, hlt⟩ h
      · intro c' hc' hle hlt
        cases hc'
        exact absurd ⟨hle, hlt⟩ h
      · intro _
        simp [create_processing_job, validate_url_is_accessible, h,
          submissionStatusCode, scheduledJobs]
  · refine ⟨?_, ?_, ?_⟩
    · constructor
      · intro hc
        simp [create_processing_job, validate_url_is_accessible, isAccepted] at hc
      · rintro ⟨c', hc', -, -⟩
        cases hc'
    · intro c' hc'
      cases hc'
    · intro _
      simp [create_processing_job, validate_url_is_accessible,
        submissionStatusCode, scheduledJobs]

theorem claim_C6_witness :
    create_processing_job (HeadOutcome.response 200) reqW =
      SubmissionResult.accepted 202
        ⟨true, "Processing accepted and initiated successfully.", "job-1"⟩ [reqW] ∧
    (submissionStatusCode (create_processing_job (HeadOutcome.response 404) reqW) = 400 ∧
     scheduledJobs (create_processing_job (HeadOutcome.response 404) reqW) = []) :=
  ⟨(claim_C6_head_gate (HeadOutcome.response 200) reqW).2.1 200 rfl (by norm_num)
      (by norm_num),
   (claim_C6_head_gate (HeadOutcome.response 404) reqW).2.2 rfl⟩

/-- C7: delivery failures of the status reporter are swallowed:
update_status_api returns normally on every outcome (while the raw POST
attempt can fail, as the last conjunct shows), and the orchestrator's result
is entirely independent of the delivery outcomes. -/
theorem claim_C7_reporter_swallows :
    (∀ (b : String) (o : PostOutcome) (j : String) (p : StatusUpdateRequest),
      (update_status_api b o j p).result = Except.ok ()) ∧
    (∀ (b : String) (env : JobEnv) (posts posts2 : List PostOutcome)
        (r : ProcessingRequest),
      run_audio_to_midi_job b env posts r = run_audio_to_midi_job b env posts2 r) ∧
    attemptPost (PostOutcome.netError "connection refused") =
      Except.error "connection refused" := by
  refine ⟨?_, ?_, rfl⟩
  · intro b o j p
    rw [update_status_api_eq]
  · intro b env posts posts2 r
    simp [run_audio_to_midi_job, mkCallbacks_eq]

/-- C8 as stated is false: when the inference call produces zero .mid files
the raised message is "MIDI conversion failed: No MIDI file was generated by
basic_pitch", which does not contain the lowercase text
"no MIDI file was generated". -/
theorem claim_C8_counterexample :
    (convert_to_midi (Except.ok []) ["T"] "job-1").result =
      Except.error "MIDI conversion failed: No MIDI file was generated by basic_pitch" ∧
    containsSubstr "MIDI conversion failed: No MIDI file was generated by basic_pitch"
      "no MIDI file was generated" = false := by
  constructor
  · rfl
  · decide

/-- C8 (amended): if the inference call completes but produces zero .mid
files, the conversion stage raises exactly
"MIDI conversion failed: No MIDI file was generated by basic_pitch", which
contains the text "No MIDI file was generated" (capital N) and is
distinguishable from a transport failure by that text. -/
theorem claim_C8_amended (files : List (String × Bytes)) (temp_dir : Path)
    (job_id : String) (h : globMid files = []) :
    (convert_to_midi (Except.ok files) temp_dir job_id).result =
      Except.error "MIDI conversion failed: No MIDI file was generated by basic_pitch" ∧
    containsSubstr "MIDI conversion failed: No MIDI file was generated by basic_pitch"
      "No MIDI file was generated" = true := by
  constructor
  · simp only [convert_to_midi, h]
    rfl
  · decide

theorem claim_C8_amended_witness :
    (convert_to_midi (Except.ok [("notes.csv", [1])]) ["T"] "j").result =
      Except.error "MIDI conversion failed: No MIDI file was generated by basic_pitch" ∧
    containsSubstr "MIDI conversion failed: No MIDI file was generated by basic_pitch"
      "No MIDI file was generated" = true :=
  claim_C8_amended [("notes.csv", [1])] ["T"] "j" rfl

/-- C9: every callback of every job is POSTed to exactly
backendBaseUrl (trailing slashes stripped) ++ "/api/users/jobs/" ++ jobId ++
"/callback"; the backend base URL is environment-sourced with default
http://localhost:3000; the serialized body uses the camelCase keys obtained
from the snake_case field names; the status is one of
processing/completed/failed, progress is in 0..100, and pythonJobId is the
job's id. -/
theorem claim_C9_callback_contract :
    statusUpdateKeys =
      ["userId", "fileId", "status", "progress", "message", "size", "pythonJobId"] ∧
    POLYGEN_BACKEND_URL (fun _ => none) = "http://localhost:3000" ∧
    (∀ (b : String) (env : JobEnv) (posts : List PostOutcome) (r : ProcessingRequest)
        (cb : SentCallback),
      cb ∈ (run_audio_to_midi_job b env posts r).callbacks →
      cb.url = rstripSlashes b ++ "/api/users/jobs/" ++ r.job_id ++ "/callback" ∧
      statusString cb.payload.status ∈ ["processing", "completed", "failed"] ∧
      (0 ≤ cb.payload.progress ∧ cb.payload.progress ≤ 100) ∧
      cb.payload.python_job_id = r.job_id) := by
  refine ⟨by decide, rfl, ?_⟩
  intro b env posts r cb hcb
  have hc : (run_audio_to_midi_job b env posts r).callbacks =
      mkCallbacks b posts r.job_id (jobTry env r).updates := rfl
  rw [hc, mkCallbacks_eq] at hcb
  obtain ⟨u, hu, rfl⟩ := List.mem_map.mp hcb
  have hf := updates_facts env r u hu
  exact ⟨rfl, by cases u.status <;> simp [statusString], hf.1, hf.2⟩

theorem claim_C9_witness :
    cbW.url = rstripSlashes "http://localhost:3000" ++ "/api/users/jobs/" ++
      reqW.job_id ++ "/callback" ∧
    statusString cbW.payload.status ∈ ["processing", "completed", "failed"] ∧
    (0 ≤ cbW.payload.progress ∧ cbW.payload.progress ≤ 100) ∧
    cbW.payload.python_job_id = reqW.job_id :=
  claim_C9_callback_contract.2.2 "http://localhost:3000" envMkFail [] reqW cbW
    (by decide)

/-- C10: the extension allow-list check is case-insensitive: a file name
whose suffix differs only in case from an allowed extension is accepted, and
the body is stored under "input_audio" plus the lowercased extension inside
the temp directory. -/
theorem claim_C10_case_insensitive (net : Except String Bytes) (temp_dir : Path)
    (file_name : String) (content : Bytes)
    (hext : pyLower (pathlibSuffix file_name) ∈ SUPPORTED_AUDIO_FORMATS)
    (hnet : net = Except.ok content) :
    (download_file net temp_dir file_name).result =
      Except.ok (temp_dir ++ ["input_audio" ++ pyLower (pathlibSuffix file_name)]) ∧
    (download_file net temp_dir file_name).written =
      [(temp_dir ++ ["input_audio" ++ pyLower (pathlibSuffix file_name)], content)] ∧
    (download_file net temp_dir file_name).requests = 1 := by
  subst hnet
  refine ⟨?_, ?_, ?_⟩ <;> simp [download_file, hext]

theorem claim_C10_witness :
    (download_file (Except.ok [5]) ["T"] "SONG.WAV").result =
      Except.ok ["T", "input_audio.wav"] ∧
    (download_file (Except.ok [5]) ["T"] "SONG.WAV").written =
      [(["T", "input_audio.wav"], [5])] ∧
    (download_file (Except.ok [5]) ["T"] "SONG.WAV").requests = 1 :=
  claim_C10_case_insensitive (Except.ok [5]) ["T"] "SONG.WAV" [5] (by decide) rfl

end MidiConv
